import Mathlib

/-!
Shallow embedding of the ESP32 Web Controller sketch
(repository Bugshan122/ESP32WebConSketch, SH1106 branch source).

Every definition below is translated from the C++ source of the sketch.
Display side effects (u8g2 drawing calls, Serial logging, delays) are not
part of the modeled state: only the mutations of the global program
variables are embedded.  C `int` variables are modeled as `Int` (the
values reached in the embedded code are small, far from 32-bit overflow);
counters that provably stay non-negative and are only combined with `+`
and `%` are modeled as `Nat`, where C `%` on non-negative operands agrees
with `Nat.mod`.
-/

namespace ESPWeb

/-- Display width in pixels (`const int SCREEN_WIDTH = 128`). -/
def SCREEN_WIDTH : Nat := 128

/-- Display height in pixels (`const int SCREEN_HEIGHT = 64`). -/
def SCREEN_HEIGHT : Nat := 64

/-!
## Animation engine state machines

Each `draw*` function below embeds the state-update portion of the
corresponding animation function of the sketch; the drawing calls that
read the state are display side effects and are omitted.
-/

/-- State update of `drawBorderChase`:
`animationPos = (animationPos + 4) % perimeter` with
`perimeter = 2 * (SCREEN_WIDTH + SCREEN_HEIGHT)`. -/
def drawBorderChase (animationPos : Nat) : Nat :=
  (animationPos + 4) % (2 * (SCREEN_WIDTH + SCREEN_HEIGHT))

/-- State update of `drawScanLine`: `scanPos = (scanPos + 2) % SCREEN_HEIGHT`. -/
def drawScanLine (scanPos : Nat) : Nat :=
  (scanPos + 2) % SCREEN_HEIGHT

/-- State update of `drawCornerSpin`: `cornerAngle = (cornerAngle + 3) % 80`. -/
def drawCornerSpin (cornerAngle : Nat) : Nat :=
  (cornerAngle + 3) % 80

/-- State update of `drawPulseBorder` on the pair
`(pulseState, pulseDirection)`:
`pulseState += pulseDirection * 2;`
`if (pulseState >= 40 || pulseState <= 0) pulseDirection *= -1;`. -/
def drawPulseBorder (s : Int × Int) : Int × Int :=
  let pulseState := s.1 + s.2 * 2
  let pulseDirection := if pulseState ≥ 40 ∨ pulseState ≤ 0 then -s.2 else s.2
  (pulseState, pulseDirection)

/-- State update of `drawBreathingBox` on the pair
`(breatheSize, breatheDir)`:
`breatheSize += breatheDir;`
`if (breatheSize >= 30 || breatheSize <= 0) breatheDir *= -1;`. -/
def drawBreathingBox (s : Int × Int) : Int × Int :=
  let breatheSize := s.1 + s.2
  let breatheDir := if breatheSize ≥ 30 ∨ breatheSize ≤ 0 then -s.2 else s.2
  (breatheSize, breatheDir)

/-- `animationPos` after `n` calls of `drawBorderChase`, from the global
initializer `int animationPos = 0`. -/
def borderChaseIter : Nat → Nat
  | 0 => 0
  | n + 1 => drawBorderChase (borderChaseIter n)

/-- `scanPos` after `n` calls of `drawScanLine`, from `int scanPos = 0`. -/
def scanLineIter : Nat → Nat
  | 0 => 0
  | n + 1 => drawScanLine (scanLineIter n)

/-- `cornerAngle` after `n` calls of `drawCornerSpin`, from
`int cornerAngle = 0`. -/
def cornerSpinIter : Nat → Nat
  | 0 => 0
  | n + 1 => drawCornerSpin (cornerSpinIter n)

/-- `(pulseState, pulseDirection)` after `n` calls of `drawPulseBorder`,
from the global initializers `int pulseState = 0; int pulseDirection = 1`. -/
def pulseIter : Nat → Int × Int
  | 0 => (0, 1)
  | n + 1 => drawPulseBorder (pulseIter n)

/-- `(breatheSize, breatheDir)` after `n` calls of `drawBreathingBox`,
from `int breatheSize = 0; int breatheDir = 1`. -/
def breatheIter : Nat → Int × Int
  | 0 => (0, 1)
  | n + 1 => drawBreathingBox (breatheIter n)

/-- Reachable pulse-border states: the direction is `1` on the way up with
the counter in `[0, 38]`, and `-1` on the way down with the counter in
`[2, 40]`. -/
def PulseInv (s : Int × Int) : Prop :=
  (s.2 = 1 ∧ 0 ≤ s.1 ∧ s.1 ≤ 38 ∧ 2 ∣ s.1)
  ∨ (s.2 = -1 ∧ 2 ≤ s.1 ∧ s.1 ≤ 40 ∧ 2 ∣ s.1)

/-- Reachable breathing-box states. -/
def BreatheInv (s : Int × Int) : Prop :=
  (s.2 = 1 ∧ 0 ≤ s.1 ∧ s.1 ≤ 29) ∨ (s.2 = -1 ∧ 1 ≤ s.1 ∧ s.1 ≤ 30)

/-!
## JSON documents and the remote fetch interface

`HTTPClient` / `ArduinoJson` internals are external collaborators.  A
fetch outcome is embedded as one of three cases that the sketch's code
distinguishes: non-success HTTP status, success with a body that
`deserializeJson` rejects, and success with a parsed document.  A parsed
document is a finite association of field names to values; looking up an
absent field yields the null variant, exactly as `doc["key"]` does.
-/

/-- A parsed JSON value as the sketch consumes it.  Floating point values
(the weather temperature) are abstracted to integers: no verified claim
computes with them. -/
inductive JsonVal where
  | vnull : JsonVal
  | vstr : String → JsonVal
  | vint : Int → JsonVal
deriving DecidableEq

/-- A parsed JSON document: an association list of fields. -/
def Json : Type := List (String × JsonVal)

/-- Outcome of one HTTP GET as the sketch's branch structure sees it:
`failure code` is a non-200 status (timeout included, `httpCode < 0`),
`badJson` is a 200 response whose body `deserializeJson` rejects,
`parsed doc` is a 200 response with a parsed body. -/
inductive FetchResponse where
  | failure : Int → FetchResponse
  | badJson : FetchResponse
  | parsed : Json → FetchResponse

/-- `doc["k"]`: the value of field `k`, or the null variant when absent. -/
def jlookup (doc : Json) (k : String) : JsonVal :=
  match List.find? (fun p => p.1 == k) doc with
  | some p => p.2
  | none => JsonVal.vnull

/-- `doc.containsKey("k")`. -/
def containsKey (doc : Json) (k : String) : Bool :=
  (List.find? (fun p => p.1 == k) doc).isSome

/-- `variant.isNull()`. -/
def isNull : JsonVal → Bool
  | JsonVal.vnull => true
  | _ => false

/-- `variant.as<String>()`: a string value is returned as is, any other
value is serialized; in particular a missing field or an explicit JSON
null yields the string `"null"` — which is why the sketch compares
`currentMode` against `"null"`. -/
def asString : JsonVal → String
  | JsonVal.vnull => "null"
  | JsonVal.vstr s => s
  | JsonVal.vint n => toString n

/-- `variant.as<int>()`: an integer value is returned as is; null (and a
missing field) converts to `0`; a string is parsed as a number (`0` when
it does not start with one).  `atol` is defined with the canvas codec
below. -/
def asIntSpec : JsonVal → Int
  | JsonVal.vnull => 0
  | JsonVal.vstr _ => 0
  | JsonVal.vint n => n

/-!
## Device state

The mutable globals of the sketch that the remote fetch operations read
or write, gathered into one record.  The canvas grids are total boolean
functions on integer coordinates standing for the `bool [96][48]` arrays;
cells outside `[0,96) × [0,48)` of a reachable canvas are always false.
-/

/-- A pixel canvas: `bool canvas[96][48]` as a total map. -/
def Canvas : Type := Int → Int → Bool

/-- `const int GRID_W = 96`. -/
def GRID_W : Int := 96

/-- `const int GRID_H = 48`. -/
def GRID_H : Int := 48

/-- `const int NUM_CITIES = 40` (the `cities` array has 40 entries). -/
def NUM_CITIES : Int := 40

/-- `targetCanvas[x][y] = true`. -/
def setCell (c : Canvas) (x y : Int) : Canvas :=
  fun a b => if a = x ∧ b = y then true else c a b

/-- The mutable globals of the sketch touched by the mode and data
fetches.  `cityTemp`/`cityHumidity` are the mutable cache fields of the
static `cities` catalog (temperature abstracted to `Int`). -/
structure DeviceState where
  userId : String
  currentMode : String
  lastMode : String
  dataLoaded : Bool
  displayMessage : String
  currentAnimation : Int
  canvas : Canvas
  pixelPaintHasData : Bool
  imagePixelCanvas : Canvas
  imagePixelHasData : Bool
  currentCity : Int
  lastCity : Int
  weatherDataLoaded : Bool
  cityTemp : List Int
  cityHumidity : List Int

/-- The global initializers of the sketch (the canvases are cleared by
`memset` in `setup` and are zero anyway as C++ globals). -/
def initialState : DeviceState where
  userId := ""
  currentMode := ""
  lastMode := ""
  dataLoaded := false
  displayMessage := "ESP32\nController"
  currentAnimation := 1
  canvas := fun _ _ => false
  pixelPaintHasData := false
  imagePixelCanvas := fun _ _ => false
  imagePixelHasData := false
  currentCity := -1
  lastCity := -1
  weatherDataLoaded := false
  cityTemp := List.replicate 40 0
  cityHumidity := List.replicate 40 0

/-- `fetchUserData()`: on 200 plus successful parse it stores
`doc["userId"]` and `doc["activeSketch"]` (as strings) and returns
`true`; on any other outcome it returns `false` and leaves the state
untouched. -/
def fetchUserData (st : DeviceState) (resp : FetchResponse) :
    DeviceState × Bool :=
  match resp with
  | FetchResponse.parsed doc =>
      ({ st with
          userId := asString (jlookup doc ("userId"))
          currentMode := asString (jlookup doc ("activeSketch")) }, true)
  | _ => (st, false)

/-- `fetchOledSettings()`: on 200 plus successful parse it stores
`doc["message"]` and `doc["animation"]`. -/
def fetchOledSettings (st : DeviceState) (resp : FetchResponse) :
    DeviceState :=
  match resp with
  | FetchResponse.parsed doc =>
      { st with
          displayMessage := asString (jlookup doc ("message"))
          currentAnimation := asIntSpec (jlookup doc ("animation")) }
  | _ => st

/-- `fetchWeatherSettings()`: on 200 plus successful parse, if
`selectedCity` is present and non-null and its integer value is in
`[0, NUM_CITIES)` and differs from `currentCity`, the city changes and
`weatherDataLoaded` is reset; an out-of-range value does nothing; a
missing or null `selectedCity` sets `currentCity = -1`. -/
def fetchWeatherSettings (st : DeviceState) (resp : FetchResponse) :
    DeviceState :=
  match resp with
  | FetchResponse.parsed doc =>
      if containsKey doc ("selectedCity")
          && !(isNull (jlookup doc ("selectedCity"))) then
        let newCity := asIntSpec (jlookup doc ("selectedCity"))
        if 0 ≤ newCity ∧ newCity < NUM_CITIES then
          if newCity ≠ st.currentCity then
            { st with currentCity := newCity, weatherDataLoaded := false }
          else st
        else st
      else
        { st with currentCity := -1 }
  | _ => st

/-!
## Arduino String primitives used by the canvas codec

`String::indexOf(char, from)`, `String::substring(left, right)` and
`String::toInt()` from the Arduino core, on `List Char`.  The parse loop
below works on the suffix of the input starting at the loop index `i`,
so `indexOf` and `substring` are stated relative to that suffix.
-/

/-- `String::indexOf(ch, i) - i` on the suffix starting at `i`: the
position of the first occurrence of `ch`, or `-1`. -/
def indexOfC (s : List Char) (ch : Char) : Int :=
  match List.findIdx? (fun a => a == ch) s with
  | some k => (k : Int)
  | none => -1

/-- `String::substring(left, right)`: swaps the bounds when
`left > right`, and clamps to the length (both conventions of the
Arduino core). -/
def substringA (s : List Char) (left right : Nat) : List Char :=
  let l := if right < left then right else left
  let r := if right < left then left else right
  List.drop l (List.take r s)

/-- `isspace` of the C library, as `atol` skips leading whitespace. -/
def isSpaceC (c : Char) : Bool :=
  c == ' ' || c == '\t' || c == '\n' || c == '\r'
    || c == Char.ofNat 11 || c == Char.ofNat 12

/-- Decimal digit accumulator of `atol`: consumes leading digits. -/
def digitsVal : List Char → Int → Int
  | [], acc => acc
  | c :: cs, acc =>
      if c.isDigit then digitsVal cs (acc * 10 + ((c.toNat : Int) - 48))
      else acc

/-- `String::toInt()` = `atol(buffer)`: skip whitespace, optional sign,
then leading digits (`0` when there are none).  The mathematical value is
used; newlib's `atol` clamps on 32-bit overflow to `LONG_MAX`/`LONG_MIN`,
which leaves every bounds comparison of the sketch (`0 ≤ v < 96` etc.)
with the same truth value. -/
def atol (s : List Char) : Int :=
  match List.dropWhile isSpaceC s with
  | '-' :: rest => -(digitsVal rest 0)
  | '+' :: rest => digitsVal rest 0
  | rest => digitsVal rest 0

/-!
## Sparse canvas codec

`parseCanvasData` of the sketch.  The loop index `i` is replaced by the
suffix of the input it points at; `fuel` bounds the iteration count and
starts at the input length, which suffices because every iteration drops
at least `semi + 1 ≥ 1` characters, so the fuel-0 branch is reached only
together with the empty-suffix branch.
-/

/-- The `while (i < canvasData.length())` loop of `parseCanvasData`. -/
def parseLoop : Canvas → Nat → List Char → Canvas
  | tc, 0, _ => tc
  | tc, _ + 1, [] => tc
  | tc, fuel + 1, ch :: rest =>
      let s := ch :: rest
      let comma := indexOfC s ','
      let semi := indexOfC s ';'
      if comma < 0 then tc
      else
        let x := atol (substringA s 0 comma.toNat)
        let y := atol (substringA s (comma.toNat + 1)
          (if semi < 0 then s.length else semi.toNat))
        let tc2 :=
          if 0 ≤ x ∧ x < GRID_W ∧ 0 ≤ y ∧ y < GRID_H then setCell tc x y
          else tc
        if semi < 0 then tc2
        else parseLoop tc2 fuel (List.drop (semi.toNat + 1) s)

/-- `parseCanvasData(canvasData, targetCanvas)`: clears the target grid
(`memset(targetCanvas, 0, ...)`), returns the cleared grid on empty
input, and otherwise runs the token loop over the cleared grid.  The
prior content `targetCanvas` is never read. -/
def parseCanvasData (canvasData : String) (targetCanvas : Canvas) :
    Canvas :=
  let cleared : Canvas := fun _ _ => false
  if canvasData.length = 0 then cleared
  else parseLoop cleared canvasData.length canvasData.toList

/-- `fetchCanvas()`: on 200 plus successful parse it reads
`doc["canvas"]` as a string, records whether it is non-empty, and decodes
it into the pixel-paint grid. -/
def fetchCanvas (st : DeviceState) (resp : FetchResponse) : DeviceState :=
  match resp with
  | FetchResponse.parsed doc =>
      let canvasData := asString (jlookup doc ("canvas"))
      { st with
          pixelPaintHasData := canvasData.length > 0
          canvas := parseCanvasData canvasData st.canvas }
  | _ => st

/-- `fetchImagePixel()`: same as `fetchCanvas` for the image-to-pixel
grid (the immediate redraw it performs is a display side effect). -/
def fetchImagePixel (st : DeviceState) (resp : FetchResponse) :
    DeviceState :=
  match resp with
  | FetchResponse.parsed doc =>
      let canvasData := asString (jlookup doc ("canvas"))
      { st with
          imagePixelHasData := canvasData.length > 0
          imagePixelCanvas := parseCanvasData canvasData st.imagePixelCanvas }
  | _ => st

/-- `fetchWeather()`: on 200 plus successful parse it stores
`doc["temp"]` and `doc["humidity"]` into the cache fields of
`cities[currentCity]`.  The `strlen(apiKey) == 0` early return is not
modeled: `loop()` returns before any fetch when the key is empty. -/
def fetchWeather (st : DeviceState) (resp : FetchResponse) : DeviceState :=
  match resp with
  | FetchResponse.parsed doc =>
      { st with
          cityTemp :=
            List.set st.cityTemp st.currentCity.toNat
              (asIntSpec (jlookup doc ("temp")))
          cityHumidity :=
            List.set st.cityHumidity st.currentCity.toNat
              (asIntSpec (jlookup doc ("humidity"))) }
  | _ => st

/-!
## Mode controller

`initCurrentMode()` and the mode-poll portion of `loop()`.  Each HTTP
operation the controller can invoke is named by a `FetchOp`; a step
returns the new state together with the list of operations it invoked,
in order.  The `showMessage`, `applyTimezone` (TZ environment variable)
and `delay` calls are side effects outside the modeled state.
-/

/-- The HTTP operations of the sketch. -/
inductive FetchOp where
  | userData : FetchOp
  | oledSettings : FetchOp
  | canvasOp : FetchOp
  | imagePixel : FetchOp
  | weatherSettings : FetchOp
  | weatherData : FetchOp
deriving DecidableEq

/-- The responses the backend would give to each endpoint during one
step. -/
structure Responses where
  device : FetchResponse
  oled : FetchResponse
  pixelPaint : FetchResponse
  imagePixelR : FetchResponse
  weatherSettingsR : FetchResponse
  weatherDataR : FetchResponse

/-- `initCurrentMode()`: resets `dataLoaded`, then dispatches on
`currentMode`: empty/`"null"`/`"none"` do nothing; `"oled"` fetches the
text settings; `"pixel-paint"` and `"image-to-pixel"` clear their
has-data flag and fetch their canvas; `"weather"` clears
`weatherDataLoaded`, fetches the weather settings, and if a city is then
selected applies its timezone and fetches the weather; an unknown mode
does nothing. -/
def initCurrentMode (st : DeviceState) (env : Responses) :
    DeviceState × List FetchOp :=
  let st := { st with dataLoaded := false }
  if st.currentMode == "" || st.currentMode == "null"
      || st.currentMode == "none" then
    (st, [])
  else if st.currentMode == "oled" then
    (fetchOledSettings st env.oled, [FetchOp.oledSettings])
  else if st.currentMode == "pixel-paint" then
    (fetchCanvas { st with pixelPaintHasData := false } env.pixelPaint,
      [FetchOp.canvasOp])
  else if st.currentMode == "image-to-pixel" then
    (fetchImagePixel { st with imagePixelHasData := false } env.imagePixelR,
      [FetchOp.imagePixel])
  else if st.currentMode == "weather" then
    let st := { st with weatherDataLoaded := false }
    let st := fetchWeatherSettings st env.weatherSettingsR
    if st.currentCity ≥ 0 then
      (fetchWeather st env.weatherDataR,
        [FetchOp.weatherSettings, FetchOp.weatherData])
    else
      (st, [FetchOp.weatherSettings])
  else
    (st, [])

/-- The mode-synchronisation portion of `loop()` on a tick where the
poll interval has elapsed: `fetchUserData()`, then on a mode change
`initCurrentMode()` and `lastMode = currentMode`. -/
def loopModeTick (st : DeviceState) (env : Responses) :
    DeviceState × List FetchOp :=
  let st1 := (fetchUserData st env.device).1
  if st1.currentMode ≠ st1.lastMode then
    let p := initCurrentMode st1 env
    ({ p.1 with lastMode := p.1.currentMode }, FetchOp.userData :: p.2)
  else
    (st1, [FetchOp.userData])


/-- A response environment in which every endpoint returns a body that
fails JSON parsing; used to build concrete test environments. -/
def badJsonResponses : Responses where
  device := FetchResponse.badJson
  oled := FetchResponse.badJson
  pixelPaint := FetchResponse.badJson
  imagePixelR := FetchResponse.badJson
  weatherSettingsR := FetchResponse.badJson
  weatherDataR := FetchResponse.badJson

/-!
## Text layout engine

The line-collection portion of `drawMessage()` (the centering arithmetic
below it positions the collected lines and adds none).  The source
hard-codes `MAX_CHARS_PER_LINE = 19` and `MAX_LINES = 5`; the functions
take them as parameters so that the spec's `layout(message, maxColumns,
maxLines)` examples are statable, and `drawMessage` instantiates the
source constants.

The `numLines < MAX_LINES` counter is replaced by the remaining line
budget `maxLines - numLines`; both loops only ever append whole lines,
so the list of already collected lines never needs to be revisited.
-/

/-- `const int MAX_CHARS_PER_LINE = 19`. -/
def MAX_CHARS_PER_LINE : Nat := 19

/-- `const int MAX_LINES = 5`. -/
def MAX_LINES : Nat := 5

/-- The split of the message at explicit line breaks performed by the
outer `for` loop of `drawMessage`: a segment ends at each `'\n'` and at
the end of the message (so a trailing `'\n'` yields a final empty
segment, and the empty message yields one empty segment). -/
def splitNL : List Char → List (List Char)
  | [] => [[]]
  | c :: cs =>
      if c = '\n' then [] :: splitNL cs
      else
        match splitNL cs with
        | s :: ss => (c :: s) :: ss
        | [] => [[c]]

/-- `String::trim()`: strip leading and trailing whitespace. -/
def trimA (s : List Char) : List Char :=
  List.reverse (List.dropWhile isSpaceC
    (List.reverse (List.dropWhile isSpaceC s)))

/-- The backward scan `for (int j = maxChars; j > 0; j--)` looking for a
space at index `j` of the segment; `breakAt` stays `maxChars` when no
space is found.  Index `j` is in bounds at every use site
(`maxChars < segment.length`); an out-of-range Arduino `String`
subscript reads as the NUL character. -/
def findBreakGo (segment : List Char) (maxChars : Nat) : Nat → Nat
  | 0 => maxChars
  | j + 1 =>
      if List.getD segment (j + 1) (Char.ofNat 0) = ' ' then j + 1
      else findBreakGo segment maxChars j

/-- The chosen break position of an over-long segment. -/
def findBreak (segment : List Char) (maxChars : Nat) : Nat :=
  findBreakGo segment maxChars maxChars

/-- The inner `while (segment.length() > 0 && numLines < MAX_LINES)`
loop of `drawMessage`, returning the lines it appends: a fitting segment
is emitted whole; otherwise the segment is split at `findBreak`, the
head is emitted, and the trimmed tail is processed with one line less of
budget. -/
def wrapSegment (maxChars : Nat) : List Char → Nat → List (List Char)
  | _, 0 => []
  | segment, budget + 1 =>
      if segment.length = 0 then []
      else if segment.length ≤ maxChars then [segment]
      else
        let breakAt := findBreak segment maxChars
        List.take breakAt segment ::
          wrapSegment maxChars (trimA (List.drop breakAt segment)) budget

/-- The outer loop of `drawMessage` over the `'\n'`-separated segments,
threading the shared line budget. -/
def wrapSegments (maxChars : Nat) : List (List Char) → Nat → List (List Char)
  | [], _ => []
  | seg :: rest, budget =>
      if budget = 0 then []
      else
        let ls := wrapSegment maxChars seg budget
        ls ++ wrapSegments maxChars rest (budget - ls.length)

/-- `layout(message, maxColumns, maxLines)`: the list of text lines the
drawMessage algorithm emits for `message` under the given column and
line limits. -/
def wrapLines (msg : String) (maxChars maxLines : Nat) :
    List (List Char) :=
  wrapSegments maxChars (splitNL msg.toList) maxLines

/-- The lines `drawMessage()` emits for a message, with the source's
constants `MAX_CHARS_PER_LINE = 19` and `MAX_LINES = 5`. -/
def drawMessage (msg : String) : List (List Char) :=
  wrapLines msg MAX_CHARS_PER_LINE MAX_LINES

/-!
## Theorems
-/

theorem pulseInv_step {s : Int × Int} (h : PulseInv s) :
    PulseInv (drawPulseBorder s) := by
  obtain ⟨s1, d1⟩ := s
  unfold PulseInv at h ⊢
  unfold drawPulseBorder
  dsimp only at h ⊢
  split <;> rename_i hc <;> omega

theorem pulseInv_iter (n : Nat) : PulseInv (pulseIter n) := by
  induction n with
  | zero => exact Or.inl (by decide)
  | succ n ih => exact pulseInv_step ih

theorem breatheInv_step {s : Int × Int} (h : BreatheInv s) :
    BreatheInv (drawBreathingBox s) := by
  obtain ⟨s1, d1⟩ := s
  unfold BreatheInv at h ⊢
  unfold drawBreathingBox
  dsimp only at h ⊢
  split <;> rename_i hc <;> omega

theorem breatheInv_iter (n : Nat) : BreatheInv (breatheIter n) := by
  induction n with
  | zero => exact Or.inl (by decide)
  | succ n ih => exact breatheInv_step ih

/-- Claim C6: starting from `(pulseState, pulseDirection) = (0, 1)` and
`(breatheSize, breatheDir) = (0, 1)`, after every sequence of step calls
`pulseState` stays within `[0, 40]` and `breatheSize` stays within
`[0, 30]`, and each direction variable flips sign at a step exactly when
the updated counter of that step reaches a bound (`0` or the maximum),
and at no other step. -/
theorem claim_C6_animation_bounds_and_flips (n : Nat) :
    (0 ≤ (pulseIter n).1 ∧ (pulseIter n).1 ≤ 40)
    ∧ (0 ≤ (breatheIter n).1 ∧ (breatheIter n).1 ≤ 30)
    ∧ ((pulseIter (n + 1)).2 = -(pulseIter n).2
        ↔ (pulseIter (n + 1)).1 = 40 ∨ (pulseIter (n + 1)).1 = 0)
    ∧ ((breatheIter (n + 1)).2 = -(breatheIter n).2
        ↔ (breatheIter (n + 1)).1 = 30 ∨ (breatheIter (n + 1)).1 = 0) := by
  have hp := pulseInv_iter n
  have hb := breatheInv_iter n
  have hps : pulseIter (n + 1) = drawPulseBorder (pulseIter n) := rfl
  have hbs : breatheIter (n + 1) = drawBreathingBox (breatheIter n) := rfl
  rw [hps, hbs]
  rcases hq : pulseIter n with ⟨s1, d1⟩
  rcases hr : breatheIter n with ⟨t1, e1⟩
  rw [hq] at hp
  rw [hr] at hb
  unfold PulseInv at hp
  unfold BreatheInv at hb
  dsimp only at hp hb
  unfold drawPulseBorder drawBreathingBox
  dsimp only
  refine ⟨by omega, by omega, ?_, ?_⟩ <;> split <;> rename_i hc <;>
    constructor <;> intro h <;> omega

/-- Claim C10: each remaining animation step function keeps its position
counter inside its wrap range for every number of calls from the initial
state `0` (the counters are `Nat`, so the lower bound `0 ≤ _` is
implicit): `animationPos < 2 * (128 + 64)`, `scanPos < 64`,
`cornerAngle < 80`. -/
theorem claim_C10_animation_wrap_ranges (n : Nat) :
    borderChaseIter n < 2 * (SCREEN_WIDTH + SCREEN_HEIGHT)
    ∧ scanLineIter n < SCREEN_HEIGHT
    ∧ cornerSpinIter n < 80 := by
  refine ⟨?_, ?_, ?_⟩ <;> cases n <;>
    first
      | decide
      | exact Nat.mod_lt _ (by decide)

/-- Unfolding of `fetchUserData` on a successfully parsed response. -/
theorem fetchUserData_parsed (st : DeviceState) (doc : Json) :
    fetchUserData st (FetchResponse.parsed doc) =
      ({ st with
          userId := asString (jlookup doc ("userId"))
          currentMode := asString (jlookup doc ("activeSketch")) }, true) := rfl

/-- Unfolding of `fetchWeatherSettings` on a successfully parsed
response. -/
theorem fetchWeatherSettings_parsed (st : DeviceState) (doc : Json) :
    fetchWeatherSettings st (FetchResponse.parsed doc) =
      (if containsKey doc ("selectedCity")
          && !(isNull (jlookup doc ("selectedCity"))) then
        (if 0 ≤ asIntSpec (jlookup doc ("selectedCity"))
            ∧ asIntSpec (jlookup doc ("selectedCity")) < NUM_CITIES then
          (if asIntSpec (jlookup doc ("selectedCity")) ≠ st.currentCity then
            { st with
                currentCity := asIntSpec (jlookup doc ("selectedCity"))
                weatherDataLoaded := false }
          else st)
        else st)
      else { st with currentCity := -1 }) := rfl

/-- `fetchWeatherSettings` never changes the mode string. -/
theorem fetchWeatherSettings_currentMode (st : DeviceState)
    (resp : FetchResponse) :
    (fetchWeatherSettings st resp).currentMode = st.currentMode := by
  cases resp with
  | failure code => rfl
  | badJson => rfl
  | parsed doc =>
      rw [fetchWeatherSettings_parsed]
      split_ifs <;> rfl

/-- `fetchWeather` never changes the mode string. -/
theorem fetchWeather_currentMode (st : DeviceState) (resp : FetchResponse) :
    (fetchWeather st resp).currentMode = st.currentMode := by
  cases resp <;> rfl

/-- Claim C1 (amended): for every mode-data fetch operation (mode query,
oled settings, pixel-paint canvas, image-to-pixel canvas, weather
settings), a non-200 HTTP status or a payload that fails JSON parsing
leaves the whole device state unchanged.  (The third case of the original
claim — a parsed payload missing an expected field — does mutate state;
see the counterexample.) -/
theorem claim_C1_transport_failures_leave_state_unchanged
    (st : DeviceState) (code : Int) :
    (fetchUserData st (FetchResponse.failure code)).1 = st
    ∧ (fetchUserData st FetchResponse.badJson).1 = st
    ∧ fetchOledSettings st (FetchResponse.failure code) = st
    ∧ fetchOledSettings st FetchResponse.badJson = st
    ∧ fetchCanvas st (FetchResponse.failure code) = st
    ∧ fetchCanvas st FetchResponse.badJson = st
    ∧ fetchImagePixel st (FetchResponse.failure code) = st
    ∧ fetchImagePixel st FetchResponse.badJson = st
    ∧ fetchWeatherSettings st (FetchResponse.failure code) = st
    ∧ fetchWeatherSettings st FetchResponse.badJson = st :=
  ⟨rfl, rfl, rfl, rfl, rfl, rfl, rfl, rfl, rfl, rfl⟩

/-- Claim C1 counterexample: a 200 weather-settings response whose parsed
payload is missing the expected `selectedCity` field is NOT treated like
a transient network failure: with the selected city index previously `5`,
the empty JSON object resets it to `-1`, while a transport failure on the
same state leaves it at `5`. -/
theorem claim_C1_counterexample_missing_field_mutates_state :
    (fetchWeatherSettings { initialState with currentCity := 5 }
        (FetchResponse.parsed [])).currentCity = -1
    ∧ (fetchWeatherSettings { initialState with currentCity := 5 }
        (FetchResponse.failure 500)).currentCity = 5 :=
  ⟨rfl, rfl⟩

/-- Claim C7: the selected city index starts at `-1`, every
weather-settings response keeps it inside `[-1, NUM_CITIES - 1]`, and a
response whose `selectedCity` value is outside `[0, NUM_CITIES - 1]` is
rejected with the whole prior state (in particular the prior index)
retained. -/
theorem claim_C7_selected_city_range_invariant
    (st : DeviceState) (resp : FetchResponse)
    (h1 : -1 ≤ st.currentCity) (h2 : st.currentCity < NUM_CITIES) :
    initialState.currentCity = -1
    ∧ (-1 ≤ (fetchWeatherSettings st resp).currentCity
        ∧ (fetchWeatherSettings st resp).currentCity < NUM_CITIES)
    ∧ (∀ doc : Json,
        containsKey doc ("selectedCity") = true →
        isNull (jlookup doc ("selectedCity")) = false →
        (asIntSpec (jlookup doc ("selectedCity")) < 0
          ∨ NUM_CITIES ≤ asIntSpec (jlookup doc ("selectedCity"))) →
        fetchWeatherSettings st (FetchResponse.parsed doc) = st) := by
  refine ⟨rfl, ?_, ?_⟩
  · cases resp with
    | failure code => exact ⟨h1, h2⟩
    | badJson => exact ⟨h1, h2⟩
    | parsed doc =>
        rw [fetchWeatherSettings_parsed]
        unfold NUM_CITIES at h2 ⊢
        split_ifs with hA hB hC <;> first | omega | (dsimp only; omega)
  · intro doc hk hn hr
    rw [fetchWeatherSettings_parsed, hk, hn]
    unfold NUM_CITIES at hr
    rw [if_pos (show ((true && !false) = true) from rfl), if_neg]
    unfold NUM_CITIES
    omega

/-- Claim C7 witness: the range invariant and the rejection of the
out-of-range value `50` at a concrete state with selected city `5`. -/
theorem claim_C7_witness :
    (-1 ≤ (fetchWeatherSettings { initialState with currentCity := 5 }
        (FetchResponse.parsed [(("selectedCity"), JsonVal.vint 50)])).currentCity
      ∧ (fetchWeatherSettings { initialState with currentCity := 5 }
        (FetchResponse.parsed [(("selectedCity"), JsonVal.vint 50)])).currentCity
          < NUM_CITIES)
    ∧ fetchWeatherSettings { initialState with currentCity := 5 }
        (FetchResponse.parsed [(("selectedCity"), JsonVal.vint 50)])
        = { initialState with currentCity := 5 } := by
  have h := claim_C7_selected_city_range_invariant
    { initialState with currentCity := 5 }
    (FetchResponse.parsed [(("selectedCity"), JsonVal.vint 50)])
    (by decide) (by decide)
  exact ⟨h.2.1, h.2.2 [(("selectedCity"), JsonVal.vint 50)]
    (by decide) (by decide) (by decide)⟩

/-- Claim C8 counterexample: a weather-settings response carrying the
out-of-range selection index `50` does NOT set the selected city index to
the sentinel `-1`: from prior index `5` the index stays `5`. -/
theorem claim_C8_counterexample_out_of_range_not_clamped :
    (fetchWeatherSettings { initialState with currentCity := 5 }
        (FetchResponse.parsed [(("selectedCity"), JsonVal.vint 50)])).currentCity
      = 5
    ∧ (((5 : Int) = -1) → False) :=
  ⟨rfl, by decide⟩

/-- Claim C8 (amended): a weather-settings response carrying a selection
index outside `[0, NUM_CITIES - 1]` is ignored — the whole prior state,
the prior index included, is retained; the sentinel `-1` is set exactly
when the `selectedCity` field is missing or null. -/
theorem claim_C8_amended_out_of_range_ignored_sentinel_on_missing
    (st : DeviceState) (doc doc2 : Json)
    (hk : containsKey doc ("selectedCity") = true)
    (hn : isNull (jlookup doc ("selectedCity")) = false)
    (hr : asIntSpec (jlookup doc ("selectedCity")) < 0
      ∨ NUM_CITIES ≤ asIntSpec (jlookup doc ("selectedCity")))
    (hm : containsKey doc2 ("selectedCity") = false
      ∨ isNull (jlookup doc2 ("selectedCity")) = true) :
    fetchWeatherSettings st (FetchResponse.parsed doc) = st
    ∧ (fetchWeatherSettings st (FetchResponse.parsed doc2)).currentCity
        = -1 := by
  constructor
  · rw [fetchWeatherSettings_parsed, hk, hn]
    unfold NUM_CITIES at hr
    rw [if_pos (show ((true && !false) = true) from rfl), if_neg]
    unfold NUM_CITIES
    omega
  · rw [fetchWeatherSettings_parsed, if_neg]
    rcases hm with hm | hm <;> simp [hm]

/-- Claim C8 witness: out-of-range `50` ignored from prior index `5`, and
the missing field mapped to the sentinel, at concrete inputs. -/
theorem claim_C8_witness :
    fetchWeatherSettings { initialState with currentCity := 5 }
        (FetchResponse.parsed [(("selectedCity"), JsonVal.vint 50)])
      = { initialState with currentCity := 5 }
    ∧ (fetchWeatherSettings { initialState with currentCity := 5 }
        (FetchResponse.parsed [])).currentCity = -1 :=
  claim_C8_amended_out_of_range_ignored_sentinel_on_missing
    { initialState with currentCity := 5 }
    [(("selectedCity"), JsonVal.vint 50)] []
    (by decide) (by decide) (by decide) (Or.inl (by decide))

/-- Claim C9 counterexample: the mode query reads the JSON field
`activeSketch`, not `activeMode`.  From the initial state (no mode
active), a successful response with body fields `userId` and
`activeMode = "weather"` leaves the controller showing the no-mode
welcome screen (mode string `"null"`) and triggers no weather-settings
fetch. -/
theorem claim_C9_counterexample_activeMode_key_not_read :
    (loopModeTick initialState
        { badJsonResponses with
            device := FetchResponse.parsed
              [(("userId"), JsonVal.vstr "u1"),
               (("activeMode"), JsonVal.vstr "weather")] }).1.currentMode
      = "null"
    ∧ ((FetchOp.weatherSettings ∈
        (loopModeTick initialState
          { badJsonResponses with
              device := FetchResponse.parsed
                [(("userId"), JsonVal.vstr "u1"),
                 (("activeMode"), JsonVal.vstr "weather")] }).2) → False) :=
  ⟨rfl, by decide⟩

/-- Claim C9 (amended): a successful mode-query response whose parsed
body has `activeSketch = "weather"`, received when no mode is active,
transitions the controller into Weather mode and triggers an immediate
weather-settings fetch as part of mode entry. -/
theorem claim_C9_amended_weather_mode_entry_fetches_settings
    (st : DeviceState) (env : Responses) (doc : Json)
    (h0 : st.currentMode = "") (h1 : st.lastMode = "")
    (hd : env.device = FetchResponse.parsed doc)
    (hm : jlookup doc ("activeSketch") = JsonVal.vstr ("weather")) :
    (loopModeTick st env).1.currentMode = "weather"
    ∧ FetchOp.weatherSettings ∈ (loopModeTick st env).2 := by
  unfold loopModeTick
  rw [hd, fetchUserData_parsed, hm]
  dsimp only [asString]
  rw [h1]
  unfold initCurrentMode
  simp only []
  split
  · split
    · exact absurd ‹_› (by decide)
    · split
      · exact absurd ‹_› (by decide)
      · split
        · exact absurd ‹_› (by decide)
        · split
          · exact absurd ‹_› (by decide)
          · split
            · split <;>
                exact ⟨by simp [fetchWeather_currentMode,
                    fetchWeatherSettings_currentMode], by simp⟩
            · exact absurd (by decide : (("weather" == "weather") = true)) ‹_›
  · rename_i hne
    simp at hne

/-- Claim C9 witness: the amended mode-entry behaviour at the initial
state with a concrete parsed response. -/
theorem claim_C9_witness :
    (loopModeTick initialState
        { badJsonResponses with
            device := FetchResponse.parsed
              [(("userId"), JsonVal.vstr "u1"),
               (("activeSketch"), JsonVal.vstr "weather")] }).1.currentMode
      = "weather"
    ∧ FetchOp.weatherSettings ∈
        (loopModeTick initialState
          { badJsonResponses with
              device := FetchResponse.parsed
                [(("userId"), JsonVal.vstr "u1"),
                 (("activeSketch"), JsonVal.vstr "weather")] }).2 :=
  claim_C9_amended_weather_mode_entry_fetches_settings initialState
    { badJsonResponses with
        device := FetchResponse.parsed
          [(("userId"), JsonVal.vstr "u1"),
           (("activeSketch"), JsonVal.vstr "weather")] }
    [(("userId"), JsonVal.vstr "u1"), (("activeSketch"), JsonVal.vstr "weather")]
    rfl rfl rfl (by decide)

/-- The backward space scan never chooses a break position beyond the
column limit. -/
theorem findBreakGo_le (segment : List Char) (maxChars : Nat) :
    ∀ j, j ≤ maxChars → findBreakGo segment maxChars j ≤ maxChars := by
  intro j
  induction j with
  | zero => intro _; exact Nat.le_refl maxChars
  | succ j ih =>
      intro hj
      unfold findBreakGo
      split
      · exact hj
      · exact ih (Nat.le_of_succ_le hj)

/-- The chosen break position is at most the column limit. -/
theorem findBreak_le (segment : List Char) (maxChars : Nat) :
    findBreak segment maxChars ≤ maxChars :=
  findBreakGo_le segment maxChars maxChars (Nat.le_refl maxChars)

/-- The inner wrapping loop emits at most its line budget. -/
theorem wrapSegment_count_le (maxChars : Nat) :
    ∀ (budget : Nat) (segment : List Char),
      (wrapSegment maxChars segment budget).length ≤ budget := by
  intro budget
  induction budget with
  | zero => intro segment; simp [wrapSegment]
  | succ b ih =>
      intro segment
      unfold wrapSegment
      split
      · simp
      · split
        · simp
        · simpa using Nat.succ_le_succ (ih _)

/-- Every line the inner wrapping loop emits fits the column limit. -/
theorem wrapSegment_width_le (maxChars : Nat) :
    ∀ (budget : Nat) (segment l : List Char),
      l ∈ wrapSegment maxChars segment budget → l.length ≤ maxChars := by
  intro budget
  induction budget with
  | zero => intro segment l h; simp [wrapSegment] at h
  | succ b ih =>
      intro segment l h
      unfold wrapSegment at h
      split at h
      · simp at h
      · split at h
        · rename_i hfit
          rw [List.mem_singleton] at h
          subst h
          exact hfit
        · rcases List.mem_cons.mp h with h | h
          · subst h
            calc (List.take (findBreak segment maxChars) segment).length
                ≤ findBreak segment maxChars := by
                  simp [List.length_take]
              _ ≤ maxChars := findBreak_le segment maxChars
          · exact ih _ _ h

/-- The outer segment loop emits at most the shared line budget. -/
theorem wrapSegments_count_le (maxChars : Nat) :
    ∀ (segs : List (List Char)) (budget : Nat),
      (wrapSegments maxChars segs budget).length ≤ budget := by
  intro segs
  induction segs with
  | nil => intro budget; simp [wrapSegments]
  | cons seg rest ih =>
      intro budget
      unfold wrapSegments
      split
      · simp
      · have h1 := wrapSegment_count_le maxChars budget seg
        have h2 := ih (budget - (wrapSegment maxChars seg budget).length)
        rw [List.length_append]
        omega

/-- Every line the outer segment loop emits fits the column limit. -/
theorem wrapSegments_width_le (maxChars : Nat) :
    ∀ (segs : List (List Char)) (budget : Nat) (l : List Char),
      l ∈ wrapSegments maxChars segs budget → l.length ≤ maxChars := by
  intro segs
  induction segs with
  | nil => intro budget l h; simp [wrapSegments] at h
  | cons seg rest ih =>
      intro budget l h
      unfold wrapSegments at h
      split at h
      · simp at h
      · rcases List.mem_append.mp h with h | h
        · exact wrapSegment_width_le maxChars budget seg l h
        · exact ih _ _ h

/-- Claim C2: for every input message string, `drawMessage` emits at most
`MAX_LINES = 5` lines, and every emitted line has length at most
`MAX_CHARS_PER_LINE = 19`. -/
theorem claim_C2_drawMessage_line_bounds (msg : String) :
    (drawMessage msg).length ≤ MAX_LINES
    ∧ ∀ l ∈ drawMessage msg, l.length ≤ MAX_CHARS_PER_LINE :=
  ⟨wrapSegments_count_le MAX_CHARS_PER_LINE (splitNL msg.toList) MAX_LINES,
   fun l hl =>
     wrapSegments_width_le MAX_CHARS_PER_LINE (splitNL msg.toList)
       MAX_LINES l hl⟩

/-- Claim C2 witness: both bounds at a concrete message and a concrete
emitted line. -/
theorem claim_C2_witness :
    (drawMessage ("Hello")).length ≤ MAX_LINES
    ∧ List.length (String.toList ("Hello")) ≤ MAX_CHARS_PER_LINE :=
  ⟨(claim_C2_drawMessage_line_bounds ("Hello")).1,
   (claim_C2_drawMessage_line_bounds ("Hello")).2
     (String.toList ("Hello")) (by decide)⟩

/-- Claim C5: wrapping `"Hello World Foo"` with column limit 10 under
the drawMessage layout algorithm (break at the last space at or before
the limit, dropping the space; hard-break at the limit when no space
exists) yields exactly the two lines `"Hello"` and `"World Foo"`. -/
theorem claim_C5_wrap_example_hello_world_foo :
    wrapLines ("Hello World Foo") 10 5
      = [String.toList ("Hello"), String.toList ("World Foo")] := by
  decide

/-- A write guarded by the grid bounds cannot make an out-of-bounds cell
true. -/
theorem setCell_oob {tc : Canvas} {a b x y : Int}
    (hin : 0 ≤ a ∧ a < GRID_W ∧ 0 ≤ b ∧ b < GRID_H)
    (hout : x < 0 ∨ GRID_W ≤ x ∨ y < 0 ∨ GRID_H ≤ y)
    (h : tc x y = false) : setCell tc a b x y = false := by
  unfold setCell
  rw [if_neg]
  · exact h
  · rintro ⟨rfl, rfl⟩
    unfold GRID_W GRID_H at hin hout
    omega

/-- The parse loop preserves falseness of out-of-bounds cells: each pair
is bounds-checked before the single write it may perform. -/
theorem parseLoop_oob (x y : Int)
    (hout : x < 0 ∨ GRID_W ≤ x ∨ y < 0 ∨ GRID_H ≤ y) :
    ∀ (fuel : Nat) (s : List Char) (tc : Canvas),
      tc x y = false → parseLoop tc fuel s x y = false := by
  intro fuel
  induction fuel with
  | zero => intro s tc h; exact h
  | succ f ih =>
      intro s tc h
      cases s with
      | nil => exact h
      | cons ch rest =>
          unfold parseLoop
          simp only []
          split
          · exact h
          · split
            · split
              · rename_i hin
                exact setCell_oob hin hout h
              · exact h
            · apply ih
              split
              · rename_i hin
                exact setCell_oob hin hout h
              · exact h

/-- Claim C3: `parseCanvasData` is a total function (it is defined for
every input string, malformed ones included) that writes only grid cells
inside `[0, 96) × [0, 48)`: every out-of-bounds cell of the result is
false for every input, so out-of-range coordinate pairs are dropped
rather than written, and the empty input leaves every cell of the result
false. -/
theorem claim_C3_parse_total_and_in_bounds (s : String) (t : Canvas)
    (x y : Int)
    (h : x < 0 ∨ GRID_W ≤ x ∨ y < 0 ∨ GRID_H ≤ y ∨ s = "") :
    parseCanvasData s t x y = false := by
  unfold parseCanvasData
  by_cases hs : s.length = 0
  · rw [if_pos hs]
  · rw [if_neg hs]
    have hout : x < 0 ∨ GRID_W ≤ x ∨ y < 0 ∨ GRID_H ≤ y := by
      rcases h with h | h | h | h | h
      · exact Or.inl h
      · exact Or.inr (Or.inl h)
      · exact Or.inr (Or.inr (Or.inl h))
      · exact Or.inr (Or.inr (Or.inr h))
      · subst h
        exact absurd rfl hs
    exact parseLoop_oob x y hout _ _ _ rfl

/-- Claim C3 witness: an out-of-bounds probe of a decoded malformed
string and an in-bounds probe of the decoded empty string, over a prior
all-true grid. -/
theorem claim_C3_witness :
    parseCanvasData ("12,99;x") (fun _ _ => true) 3 99 = false
    ∧ parseCanvasData ("") (fun _ _ => true) 1 2 = false :=
  ⟨claim_C3_parse_total_and_in_bounds ("12,99;x") (fun _ _ => true) 3 99
      (Or.inr (Or.inr (Or.inr (Or.inl (by decide))))),
   claim_C3_parse_total_and_in_bounds ("") (fun _ _ => true) 1 2
      (Or.inr (Or.inr (Or.inr (Or.inr rfl))))⟩

/-- Claim C4: for every prior content of the target grid, decoding
`"2,3;5,5;"` yields a grid in which exactly the cells `(2,3)` and
`(5,5)` are true — the decode fully replaces the grid instead of merging
with the prior content (which appears nowhere in the result). -/
theorem claim_C4_decode_example_replaces_grid (c0 : Canvas) (x y : Int) :
    parseCanvasData ("2,3;5,5;") c0 x y = true
      ↔ ((x = 2 ∧ y = 3) ∨ (x = 5 ∧ y = 5)) := by
  have h : parseCanvasData ("2,3;5,5;") c0
      = setCell (setCell (fun _ _ => false) 2 3) 5 5 := rfl
  rw [h]
  unfold setCell
  simp only []
  split <;> rename_i h1
  · simp only [true_iff]
    exact Or.inr h1
  · split <;> rename_i h2
    · simp only [true_iff]
      exact Or.inl h2
    · constructor
      · intro hf
        exact absurd hf (by decide)
      · rintro (hc | hc)
        · exact absurd hc h2
        · exact absurd hc h1

end ESPWeb
